import Mathlib

/-!
Shallow embedding of `validator_demo.py` (AI Startup Validator, Streamlit app):
the provider fallback selector, the retry loop, the submission throttle and the
result cache, together with theorems settling the spec claims about them.
-/

set_option maxRecDepth 4000

namespace ValidatorDemo

/-- One entry of the static `providers` list inside `get_llm_with_fallback`.
Generation parameters (Python floats) are embedded as rationals. -/
structure ProviderConfig where
  name : String
  model : String
  api_key_name : String
  priority : Nat
  params : List (String × ℚ)
deriving DecidableEq

/-- The static ordered provider list (lines 46-84 of the source). -/
def providers : List ProviderConfig :=
  [ { name := "Groq (Fast)"
    , model := "groq/llama-3.1-8b-instant"
    , api_key_name := "GROQ_API_KEY"
    , priority := 1
    , params := [("temperature", 0.3), ("max_tokens", 2000), ("top_p", 0.9),
                 ("frequency_penalty", 0.5), ("presence_penalty", 0.3)] }
  , { name := "OpenRouter (Reliable)"
    , model := "openrouter/meta-llama/llama-3.1-8b-instruct:free"
    , api_key_name := "OPENROUTER_API_KEY"
    , priority := 2
    , params := [("temperature", 0.3), ("max_tokens", 2000), ("top_p", 0.9),
                 ("frequency_penalty", 0.5), ("presence_penalty", 0.3)] }
  , { name := "Hugging Face (Backup)"
    , model := "huggingface/meta-llama/Meta-Llama-3.1-8B-Instruct"
    , api_key_name := "HUGGINGFACE_API_KEY"
    , priority := 3
    , params := [("temperature", 0.3), ("max_tokens", 2000), ("top_p", 0.9)] }
  ]

/-- A provider is available when its key is in `st.secrets` and `LLM(...)`
construction does not raise. `secrets` models membership in `st.secrets`;
`constructOk` is the oracle for whether the `LLM(...)` constructor succeeds. -/
def available (secrets : String → Bool) (constructOk : ProviderConfig → Bool)
    (p : ProviderConfig) : Bool :=
  secrets p.api_key_name && constructOk p

/-- `get_llm_with_fallback` (lines 86-98): scan the list in order; for each
provider whose key is in `st.secrets`, try to build the client and return
`(llm, provider name)`; on a construction exception continue; if the scan
ends, raise (modelled by `none`). The constructed `LLM` handle is a function
of the config alone, so it is modelled by the config itself. -/
def get_llm_with_fallback (secrets : String → Bool) (constructOk : ProviderConfig → Bool) :
    List ProviderConfig → Option (ProviderConfig × String)
  | [] => none
  | p :: rest =>
    if secrets p.api_key_name then
      if constructOk p then some (p, p.name)
      else get_llm_with_fallback secrets constructOk rest
    else get_llm_with_fallback secrets constructOk rest

/-- Message of the exception raised when no provider is usable (line 98). -/
def no_provider_msg : String := "❌ All LLM providers unavailable. Please try again later."

/-- Outcome of the module-level startup block (lines 101-105). -/
inductive Startup where
  | ready (llm : ProviderConfig) (active_provider : String)
  | halted (msg : String)
deriving DecidableEq

/-- Startup (lines 101-105): call the selector on the static list; on the
exception, display the message and `st.stop()` (modelled by `halted`). -/
def startup (secrets : String → Bool) (constructOk : ProviderConfig → Bool) : Startup :=
  match get_llm_with_fallback secrets constructOk providers with
  | some (l, n) => Startup.ready l n
  | none => Startup.halted no_provider_msg

example :
    (get_llm_with_fallback (fun k => k == "OPENROUTER_API_KEY") (fun _ => true) providers).map
      Prod.snd = some "OpenRouter (Reliable)" := by decide

example :
    (get_llm_with_fallback (fun _ => true) (fun _ => true) providers).map
      Prod.snd = some "Groq (Fast)" := by decide

example :
    get_llm_with_fallback (fun k => k == "GROQ_API_KEY") (fun _ => false) providers = none := by
  decide

/-! ### String helpers: Python `str.strip()` / `str.lower()` -/

/-- Python `s.strip()`: remove leading and trailing whitespace. -/
def pyStrip (s : String) : String :=
  ⟨((s.data.dropWhile Char.isWhitespace).reverse.dropWhile Char.isWhitespace).reverse⟩

/-- Python `s.lower()`: lower-case every character. -/
def pyLower (s : String) : String :=
  ⟨s.data.map Char.toLower⟩

/-- The normalization applied before hashing (line 306): `idea.strip().lower()`. -/
def normalize (s : String) : String := pyLower (pyStrip s)

example : pyStrip "  a b " = "a b" := by decide
example : normalize " Foo " = "foo" := by decide
example : pyStrip "   " = "" := by decide

/-! ### Retry/fallback loop (lines 309-374) -/

/-- Outcome of one invocation of the cached job runner inside the loop body:
a returned result, a raised `RateLimitError`, or any other exception. -/
inductive RunOutcome where
  | ok (result : String)
  | rateLimited
  | err (msg : String)
deriving DecidableEq

/-- How the loop ended. `done` is the success `break` (line 333); `exhausted`
the `attempt == max_retries - 1` rate-limit `break` (line 361); `allRateLimited`
the `break` when re-selection raises (line 352); `fatal` the generic exception
`break` (line 374); `fellThrough` the (unreachable from attempt 0) end of the
`range` with no `break`. -/
inductive LoopResult where
  | done (result : String)
  | exhausted
  | allRateLimited
  | fatal (msg : String)
  | fellThrough
deriving DecidableEq

/-- Observable trace of the retry loop: how many times the job runner was
invoked, the slept delays in order, the active provider name at each
invocation, and the terminal result. -/
structure LoopTrace where
  invocations : Nat
  sleeps : List Nat
  providersUsed : List String
  result : LoopResult
deriving DecidableEq

/-- `max_retries = 3` (line 309). -/
def max_retries : Nat := 3

/-- `retry_delays = [10, 20, 40]` (line 310). -/
def retry_delays : List Nat := [10, 20, 40]

/-- Body of `for attempt in range(max_retries)` (lines 312-374). `run attempt`
is the outcome of `run_single_agent_validation` at that attempt; `reselect t`
is the outcome of the `get_llm_with_fallback()` call made before the t-th
attempt (`none` when it raises); `active` is the current provider name;
`remaining` counts the iterations the `range` still allows. -/
def retryFrom (run : Nat → RunOutcome) (reselect : Nat → Option (ProviderConfig × String))
    (active : String) : Nat → Nat → LoopTrace
  | _, 0 => ⟨0, [], [], LoopResult.fellThrough⟩
  | attempt, remaining + 1 =>
    match run attempt with
    | RunOutcome.ok r => ⟨1, [], [active], LoopResult.done r⟩
    | RunOutcome.err m => ⟨1, [], [active], LoopResult.fatal m⟩
    | RunOutcome.rateLimited =>
      if attempt < max_retries - 1 then
        let d := retry_delays.getD attempt 0
        match reselect (attempt + 1) with
        | some (_, name) =>
          let t := retryFrom run reselect name (attempt + 1) remaining
          ⟨t.invocations + 1, d :: t.sleeps, active :: t.providersUsed, t.result⟩
        | none => ⟨1, [d], [active], LoopResult.allRateLimited⟩
      else ⟨1, [], [active], LoopResult.exhausted⟩

/-- The whole retry loop, started at attempt 0 with `max_retries` iterations
available. -/
def retryLoop (run : Nat → RunOutcome) (reselect : Nat → Option (ProviderConfig × String))
    (active : String) : LoopTrace :=
  retryFrom run reselect active 0 max_retries

example :
    retryLoop (fun _ => RunOutcome.ok "report") (fun _ => none) "Groq (Fast)"
      = ⟨1, [], ["Groq (Fast)"], LoopResult.done "report"⟩ := by decide

example :
    retryLoop (fun _ => RunOutcome.rateLimited) (fun _ => some (providers.get ⟨2, by decide⟩,
      "Hugging Face (Backup)")) "Groq (Fast)"
      = ⟨3, [10, 20], ["Groq (Fast)", "Hugging Face (Backup)", "Hugging Face (Backup)"],
         LoopResult.exhausted⟩ := by decide

example :
    retryLoop (fun _ => RunOutcome.rateLimited) (fun _ => none) "Groq (Fast)"
      = ⟨1, [10], ["Groq (Fast)"], LoopResult.allRateLimited⟩ := by decide

example :
    retryLoop (fun i => if i = 0 then RunOutcome.rateLimited else RunOutcome.err "boom")
      (fun _ => some (providers.get ⟨0, by decide⟩, "Groq (Fast)")) "Groq (Fast)"
      = ⟨2, [10], ["Groq (Fast)", "Groq (Fast)"], LoopResult.fatal "boom"⟩ := by decide

/-! ### Session state and the submission flow (lines 35-38, 270-303) -/

/-- `st.session_state`: `last_request_time` (a timestamp in whole seconds,
`none` for Python `None`) and `validation_count`. -/
structure SessionState where
  last_request_time : Option Nat
  validation_count : Nat
deriving DecidableEq

/-- `cooldown_period = 300` (line 287). -/
def cooldown_period : Nat := 300

/-- `(datetime.now() - st.session_state.last_request_time).seconds` (line 290):
the `seconds` field of the timedelta, which for a non-negative delta is the
total elapsed seconds with whole days discarded (`.seconds`, not
`.total_seconds()`). Modelled for `now ≥ last`. -/
def time_elapsed (now last : Nat) : Nat := (now - last) % 86400

/-- Outcome of one click of the "Validate Idea" button. `emptyWarning` is the
blank-idea `st.stop()` (lines 271-273); `limitReached` the session-cap
`st.stop()` (lines 276-284); `cooldownActive remaining` the cooldown
`st.stop()` with `remaining = cooldown_period - time_elapsed` (lines 292-299);
`ran trace` means the flow updated the tracking state and entered the retry
loop. -/
inductive SubmitOutcome where
  | emptyWarning
  | limitReached
  | cooldownActive (remaining : Nat)
  | ran (trace : LoopTrace)
deriving DecidableEq

/-- The `if st.button("Validate Idea")` block (lines 270-374): blank-idea
guard, session cap (`validation_count >= 3`), cooldown check, then the
tracking update (`last_request_time = now`, `validation_count += 1`,
lines 301-303) followed by the retry loop. Returns the outcome and the
session state after the click. -/
def validateClick (st : SessionState) (idea : String) (now : Nat)
    (run : Nat → RunOutcome) (reselect : Nat → Option (ProviderConfig × String))
    (active : String) : SubmitOutcome × SessionState :=
  if pyStrip idea = "" then (SubmitOutcome.emptyWarning, st)
  else if 3 ≤ st.validation_count then (SubmitOutcome.limitReached, st)
  else
    match st.last_request_time with
    | some last =>
      if time_elapsed now last < cooldown_period then
        (SubmitOutcome.cooldownActive (cooldown_period - time_elapsed now last), st)
      else
        (SubmitOutcome.ran (retryLoop run reselect active),
         { last_request_time := some now, validation_count := st.validation_count + 1 })
    | none =>
      (SubmitOutcome.ran (retryLoop run reselect active),
       { last_request_time := some now, validation_count := st.validation_count + 1 })

/-- The "🔄 Reset Session" button (lines 448-452): `validation_count = 0`,
`last_request_time = None` (it also clears the result cache). -/
def resetSession (_st : SessionState) : SessionState :=
  { last_request_time := none, validation_count := 0 }

/-- Process a list of click events `(idea, now)` in order, threading the
session state; returns the final state and how many clicks entered the retry
loop (accepted submissions). -/
def processEvents (run : Nat → RunOutcome) (reselect : Nat → Option (ProviderConfig × String))
    (active : String) : SessionState → List (String × Nat) → SessionState × Nat
  | st, [] => (st, 0)
  | st, (idea, now) :: evs =>
    let step := validateClick st idea now run reselect active
    let rest := processEvents run reselect active step.2 evs
    match step.1 with
    | SubmitOutcome.ran _ => (rest.1, rest.2 + 1)
    | _ => rest

/-- Fixed successful environment used in concrete evaluations. -/
def runOk : Nat → RunOutcome := fun _ => RunOutcome.ok "report"

/-- Fixed re-selection environment (never consulted on the success path). -/
def reselectNone : Nat → Option (ProviderConfig × String) := fun _ => none

example :
    validateClick ⟨none, 0⟩ "a" 0 runOk reselectNone "Groq (Fast)"
      = (SubmitOutcome.ran ⟨1, [], ["Groq (Fast)"], LoopResult.done "report"⟩,
         ⟨some 0, 1⟩) := by decide

example :
    (validateClick ⟨some 0, 0⟩ "a" 299 runOk reselectNone "Groq (Fast)").1
      = SubmitOutcome.cooldownActive 1 := by decide

example :
    (validateClick ⟨some 0, 0⟩ "a" 300 runOk reselectNone "Groq (Fast)").1
      = SubmitOutcome.ran ⟨1, [], ["Groq (Fast)"], LoopResult.done "report"⟩ := by decide

example :
    (validateClick ⟨some 0, 0⟩ "a" 86500 runOk reselectNone "Groq (Fast)").1
      = SubmitOutcome.cooldownActive 200 := by decide

example :
    processEvents runOk reselectNone "Groq (Fast)" ⟨none, 0⟩
      [("a", 0), ("a", 300), ("a", 600), ("a", 900)] = (⟨some 600, 3⟩, 3) := by decide

/-! ### Result cache (line 114: `@st.cache_data(ttl=3600)`, line 306) -/

/-- `ttl=3600` seconds (line 114). -/
def cache_ttl : Nat := 3600

/-- `hashlib.md5(idea.strip().lower().encode()).hexdigest()` (line 306). The
md5 hex digest is modelled by the digested text itself: the digest is a
deterministic function of the text and only equality of digests matters to
the cache, so this preserves the key structure (collisions are ignored). -/
def md5_hexdigest (s : String) : String := s

/-- `idea_hash` (line 306). -/
def idea_hash (idea : String) : String := md5_hexdigest (normalize idea)

/-- The `st.cache_data` key for `run_single_agent_validation(idea_hash, idea,
_llm)` (line 317): the decorator keys on all parameters except the
underscore-prefixed `_llm`, so the key is the pair `(idea_hash, idea_text)`
with the raw, un-normalized idea text as second component. -/
def cache_key (idea : String) : String × String := (idea_hash idea, idea)

/-- One memoization entry of the `st.cache_data` store. -/
structure CacheEntry where
  key : String × String
  storedAt : Nat
  value : String
deriving DecidableEq

/-- An entry is live at `now` while younger than the ttl. -/
def cacheFresh (now : Nat) (e : CacheEntry) : Bool :=
  decide (now < e.storedAt + cache_ttl)

/-- Look up a live entry for `k`. -/
def cacheLookup (cache : List CacheEntry) (k : String × String) (now : Nat) : Option String :=
  (cache.find? (fun e => e.key == k && cacheFresh now e)).map CacheEntry.value

/-- `run_single_agent_validation(idea_hash, idea_text, _llm)` under its
`@st.cache_data(ttl=3600)` decorator (lines 114-240): on a live cached entry
for the key, return it with zero `crew.kickoff()` calls; otherwise run the
crew (`kickoff`, an oracle from the idea text to the report), store and return
it, with one call. Result: (report, new cache, number of kickoff calls). -/
def run_single_agent_validation (cache : List CacheEntry) (idea : String) (now : Nat)
    (kickoff : String → String) : String × List CacheEntry × Nat :=
  match cacheLookup cache (cache_key idea) now with
  | some v => (v, cache, 0)
  | none =>
    let r := kickoff idea
    (r, ⟨cache_key idea, now, r⟩ :: cache, 1)

/-- Number of provider (kickoff) calls made by a second submission `i2` at
time `t2`, after a first submission `i1` at time `t1` against an empty cache. -/
def secondSubmissionKickoffs (i1 i2 : String) (t1 t2 : Nat) (kickoff : String → String) : Nat :=
  ((run_single_agent_validation
      (run_single_agent_validation [] i1 t1 kickoff).2.1 i2 t2 kickoff).2.2)

example : secondSubmissionKickoffs "Foo" "Foo" 0 600 (fun _ => "report") = 0 := by decide
example : secondSubmissionKickoffs "Foo" "Foo" 0 4000 (fun _ => "report") = 1 := by decide
example : secondSubmissionKickoffs "Foo" " foo " 0 600 (fun _ => "report") = 1 := by decide

/-! ### Helper lemmas about the selector -/

theorem get_llm_skip (secrets : String → Bool) (constructOk : ProviderConfig → Bool)
    (p : ProviderConfig) (rest : List ProviderConfig)
    (h : available secrets constructOk p = false) :
    get_llm_with_fallback secrets constructOk (p :: rest) =
      get_llm_with_fallback secrets constructOk rest := by
  cases hs : secrets p.api_key_name with
  | false => simp [get_llm_with_fallback, hs]
  | true =>
    cases hc : constructOk p with
    | false => simp [get_llm_with_fallback, hs, hc]
    | true => simp [available, hs, hc] at h

theorem get_llm_hit (secrets : String → Bool) (constructOk : ProviderConfig → Bool)
    (p : ProviderConfig) (rest : List ProviderConfig)
    (h : available secrets constructOk p = true) :
    get_llm_with_fallback secrets constructOk (p :: rest) = some (p, p.name) := by
  rw [available, Bool.and_eq_true] at h
  simp [get_llm_with_fallback, h.1, h.2]

theorem get_llm_none (secrets : String → Bool) (constructOk : ProviderConfig → Bool) :
    ∀ ps : List ProviderConfig,
      (∀ p ∈ ps, available secrets constructOk p = false) →
      get_llm_with_fallback secrets constructOk ps = none := by
  intro ps
  induction ps with
  | nil => intro _; rfl
  | cons p rest ih =>
    intro h
    rw [get_llm_skip secrets constructOk p rest (h p (List.mem_cons_self p rest))]
    exact ih fun q hq => h q (List.mem_cons_of_mem p hq)

/-! ### Claim C1: the selector returns the first available provider -/

/-- Claim C1, counterexample to the claim as stated: in the static provider
list with the Groq credential present (so "at least one provider's credential
key is present") but every client construction raising, the selector does not
return any provider at all — it raises (modelled by `none`) — even though the
claim asserts it returns the lowest-index provider with credential present
and construction succeeding. -/
theorem c1_counterexample :
    (∃ p ∈ providers, (fun k => k == "GROQ_API_KEY") p.api_key_name = true) ∧
    get_llm_with_fallback (fun k => k == "GROQ_API_KEY") (fun _ => false) providers
      = none := by
  exact ⟨by decide, by decide⟩

/-- Claim C1 (amended): for every ordered provider list in which at least one
provider is available (credential present AND client construction succeeds),
`get_llm_with_fallback` returns the lowest-index available provider, and every
lower-index (higher-priority) provider is unavailable. -/
theorem c1_selector_first_available (secrets : String → Bool)
    (constructOk : ProviderConfig → Bool) :
    ∀ ps : List ProviderConfig,
      (∃ p ∈ ps, available secrets constructOk p = true) →
      ∃ (i : Nat) (hi : i < ps.length),
        available secrets constructOk (ps.get ⟨i, hi⟩) = true ∧
        get_llm_with_fallback secrets constructOk ps =
          some (ps.get ⟨i, hi⟩, (ps.get ⟨i, hi⟩).name) ∧
        ∀ (j : Nat) (hj : j < ps.length), j < i →
          available secrets constructOk (ps.get ⟨j, hj⟩) = false := by
  intro ps
  induction ps with
  | nil => rintro ⟨p, hp, _⟩; cases hp
  | cons p rest ih =>
    intro h
    cases hav : available secrets constructOk p with
    | true =>
      refine ⟨0, by simp, by simpa using hav, ?_, ?_⟩
      · simpa using get_llm_hit secrets constructOk p rest hav
      · intro j hj hj0; omega
    | false =>
      have hrest : ∃ q ∈ rest, available secrets constructOk q = true := by
        obtain ⟨q, hq, hqa⟩ := h
        rcases List.mem_cons.mp hq with rfl | hq2
        · rw [hav] at hqa; cases hqa
        · exact ⟨q, hq2, hqa⟩
      obtain ⟨i, hi, h1, h2, h3⟩ := ih hrest
      refine ⟨i + 1, by simpa using Nat.succ_lt_succ hi, by simpa using h1, ?_, ?_⟩
      · rw [get_llm_skip secrets constructOk p rest hav]
        simpa using h2
      · intro j hj hji
        cases j with
        | zero => simpa using hav
        | succ j2 =>
          have hj2 : j2 < rest.length := by simpa using hj
          simpa using h3 j2 hj2 (by omega)

/-- Claim C1, witness: with only the OpenRouter credential configured and all
constructions succeeding, the amended theorem applies. -/
theorem c1_selector_first_available_witness :
    ∃ (i : Nat) (hi : i < providers.length),
      available (fun k => k == "OPENROUTER_API_KEY") (fun _ => true)
        (providers.get ⟨i, hi⟩) = true ∧
      get_llm_with_fallback (fun k => k == "OPENROUTER_API_KEY") (fun _ => true) providers =
        some (providers.get ⟨i, hi⟩, (providers.get ⟨i, hi⟩).name) ∧
      ∀ (j : Nat) (hj : j < providers.length), j < i →
        available (fun k => k == "OPENROUTER_API_KEY") (fun _ => true)
          (providers.get ⟨j, hj⟩) = false :=
  c1_selector_first_available (fun k => k == "OPENROUTER_API_KEY") (fun _ => true)
    providers (by decide)

/-! ### Claim C8: no available provider means a configuration failure -/

/-- Claim C8: for every provider list in which no credential is present or
every client construction raises, the selector raises its configuration error
(modelled by `none`) — so the job runner is never reached — and for the
program's static list the startup block halts with the user-facing message
instead of retrying. -/
theorem c8_no_available_provider (secrets : String → Bool)
    (constructOk : ProviderConfig → Bool) (ps : List ProviderConfig)
    (h : ∀ p ∈ ps, secrets p.api_key_name = false ∨ constructOk p = false) :
    get_llm_with_fallback secrets constructOk ps = none ∧
    (ps = providers → startup secrets constructOk = Startup.halted no_provider_msg) := by
  have hav : ∀ p ∈ ps, available secrets constructOk p = false := by
    intro p hp
    rcases h p hp with h1 | h1 <;> simp [available, h1]
  have hnone := get_llm_none secrets constructOk ps hav
  refine ⟨hnone, ?_⟩
  rintro rfl
  simp [startup, hnone]

/-- Claim C8, witness: with an empty secrets store, the selector fails on the
static provider list and startup halts. -/
theorem c8_no_available_provider_witness :
    get_llm_with_fallback (fun _ => false) (fun _ => true) providers = none ∧
    (providers = providers →
      startup (fun _ => false) (fun _ => true) = Startup.halted no_provider_msg) :=
  c8_no_available_provider (fun _ => false) (fun _ => true) providers
    (fun _ _ => Or.inl rfl)

/-! ### Helper lemma: the loop never exceeds its iteration budget -/

theorem retryFrom_invocations_le (run : Nat → RunOutcome)
    (reselect : Nat → Option (ProviderConfig × String)) :
    ∀ (remaining attempt : Nat) (active : String),
      (retryFrom run reselect active attempt remaining).invocations ≤ remaining := by
  intro remaining
  induction remaining with
  | zero => intro attempt active; simp [retryFrom]
  | succ n ih =>
    intro attempt active
    simp only [retryFrom]
    split
    · simp
    · simp
    · split
      · split
        · rename_i p name heq
          exact Nat.succ_le_succ (ih (attempt + 1) name)
        · simp
      · simp

/-! ### Claim C2: k rate-limit failures, k < N, then success -/

/-- Claim C2: if the job runner rate-limits on the first `k` attempts
(`k < max_retries`), each intervening provider re-selection succeeds, and the
`(k+1)`-th invocation returns a result, then the loop makes exactly `k + 1`
invocations, ends with that result, and sleeps exactly the first `k` scheduled
delays in order between consecutive invocations. -/
theorem c2_retry_success (run : Nat → RunOutcome)
    (reselect : Nat → Option (ProviderConfig × String)) (active : String)
    (k : Nat) (r : String)
    (hk : k < max_retries)
    (hfail : ∀ i, i < k → run i = RunOutcome.rateLimited)
    (hok : run k = RunOutcome.ok r)
    (hres : ∀ i, 1 ≤ i → i ≤ k → (reselect i).isSome = true) :
    (retryLoop run reselect active).invocations = k + 1 ∧
    (retryLoop run reselect active).result = LoopResult.done r ∧
    (retryLoop run reselect active).sleeps = retry_delays.take k := by
  have hk3 : k < 3 := hk
  interval_cases k
  · simp [retryLoop, retryFrom, max_retries, retry_delays, hok]
  · obtain ⟨⟨p1, n1⟩, hx1⟩ := Option.isSome_iff_exists.mp (hres 1 (by omega) (by omega))
    simp [retryLoop, retryFrom, max_retries, retry_delays, List.getD,
      hfail 0 (by omega), hok, hx1]
  · obtain ⟨⟨p1, n1⟩, hx1⟩ := Option.isSome_iff_exists.mp (hres 1 (by omega) (by omega))
    obtain ⟨⟨p2, n2⟩, hx2⟩ := Option.isSome_iff_exists.mp (hres 2 (by omega) (by omega))
    simp [retryLoop, retryFrom, max_retries, retry_delays, List.getD,
      hfail 0 (by omega), hfail 1 (by omega), hok, hx1, hx2]

/-- Claim C2, witness: one rate-limit failure then success, with re-selection
returning Groq again. -/
theorem c2_retry_success_witness :
    (retryLoop (fun i => if i = 0 then RunOutcome.rateLimited else RunOutcome.ok "report")
        (fun _ => some (⟨"Groq (Fast)", "groq/llama-3.1-8b-instant", "GROQ_API_KEY", 1, []⟩,
          "Groq (Fast)")) "Groq (Fast)").invocations = 1 + 1 ∧
    (retryLoop (fun i => if i = 0 then RunOutcome.rateLimited else RunOutcome.ok "report")
        (fun _ => some (⟨"Groq (Fast)", "groq/llama-3.1-8b-instant", "GROQ_API_KEY", 1, []⟩,
          "Groq (Fast)")) "Groq (Fast)").result = LoopResult.done "report" ∧
    (retryLoop (fun i => if i = 0 then RunOutcome.rateLimited else RunOutcome.ok "report")
        (fun _ => some (⟨"Groq (Fast)", "groq/llama-3.1-8b-instant", "GROQ_API_KEY", 1, []⟩,
          "Groq (Fast)")) "Groq (Fast)").sleeps = retry_delays.take 1 :=
  c2_retry_success _ _ "Groq (Fast)" 1 "report" (by decide)
    (by intro i hi; interval_cases i; rfl) (by rfl)
    (by intro i h1 h2; interval_cases i; rfl)

/-! ### Claim C3: N rate-limit failures exhaust the loop -/

/-- Claim C3: if every attempt rate-limits and each re-selection succeeds, the
loop makes exactly `max_retries` invocations and terminates exhausted; and
unconditionally, no execution of the loop ever makes more than `max_retries`
invocations (no `(N+1)`-th call exists). -/
theorem c3_rate_limit_exhaustion (run : Nat → RunOutcome)
    (reselect : Nat → Option (ProviderConfig × String)) (active : String)
    (hfail : ∀ i, i < max_retries → run i = RunOutcome.rateLimited)
    (hres : ∀ i, 1 ≤ i → i < max_retries → (reselect i).isSome = true) :
    (retryLoop run reselect active).invocations = max_retries ∧
    (retryLoop run reselect active).result = LoopResult.exhausted ∧
    (∀ (run2 : Nat → RunOutcome) (rs2 : Nat → Option (ProviderConfig × String)) (a2 : String),
      (retryLoop run2 rs2 a2).invocations ≤ max_retries) := by
  obtain ⟨⟨p1, n1⟩, hx1⟩ := Option.isSome_iff_exists.mp (hres 1 (by decide) (by decide))
  obtain ⟨⟨p2, n2⟩, hx2⟩ := Option.isSome_iff_exists.mp (hres 2 (by decide) (by decide))
  have htrace : retryLoop run reselect active =
      ⟨3, [10, 20], [active, n1, n2], LoopResult.exhausted⟩ := by
    simp [retryLoop, retryFrom, max_retries, retry_delays, List.getD,
      hfail 0 (by decide), hfail 1 (by decide), hfail 2 (by decide), hx1, hx2]
  rw [htrace]
  exact ⟨rfl, rfl, fun run2 rs2 a2 => retryFrom_invocations_le run2 rs2 max_retries 0 a2⟩

/-- Claim C3, witness: every attempt rate-limited, re-selection always
returning Hugging Face. -/
theorem c3_rate_limit_exhaustion_witness :
    (retryLoop (fun _ => RunOutcome.rateLimited)
        (fun _ => some (⟨"Hugging Face (Backup)",
          "huggingface/meta-llama/Meta-Llama-3.1-8B-Instruct", "HUGGINGFACE_API_KEY", 3, []⟩,
          "Hugging Face (Backup)")) "Groq (Fast)").invocations = max_retries ∧
    (retryLoop (fun _ => RunOutcome.rateLimited)
        (fun _ => some (⟨"Hugging Face (Backup)",
          "huggingface/meta-llama/Meta-Llama-3.1-8B-Instruct", "HUGGINGFACE_API_KEY", 3, []⟩,
          "Hugging Face (Backup)")) "Groq (Fast)").result = LoopResult.exhausted ∧
    (∀ (run2 : Nat → RunOutcome) (rs2 : Nat → Option (ProviderConfig × String)) (a2 : String),
      (retryLoop run2 rs2 a2).invocations ≤ max_retries) :=
  c3_rate_limit_exhaustion _ _ "Groq (Fast)" (fun _ _ => rfl)
    (fun _ _ _ => rfl)

/-! ### Claim C5: a non-rate-limit failure stops the loop at once -/

/-- Claim C5: if attempt `j` (after `j` prior rate-limit failures with
successful re-selections) raises a non-rate-limit exception, the loop stops
with exactly `j + 1` invocations in the fatal state — no retry and no further
sleep after the failure. In particular, a non-rate-limit failure on the first
attempt gives exactly 1 invocation. -/
theorem c5_fatal_no_retry (run : Nat → RunOutcome)
    (reselect : Nat → Option (ProviderConfig × String)) (active : String)
    (j : Nat) (m : String)
    (hj : j < max_retries)
    (hfail : ∀ i, i < j → run i = RunOutcome.rateLimited)
    (herr : run j = RunOutcome.err m)
    (hres : ∀ i, 1 ≤ i → i ≤ j → (reselect i).isSome = true) :
    (retryLoop run reselect active).invocations = j + 1 ∧
    (retryLoop run reselect active).result = LoopResult.fatal m ∧
    (retryLoop run reselect active).sleeps = retry_delays.take j := by
  have hj3 : j < 3 := hj
  interval_cases j
  · simp [retryLoop, retryFrom, max_retries, retry_delays, herr]
  · obtain ⟨⟨p1, n1⟩, hx1⟩ := Option.isSome_iff_exists.mp (hres 1 (by omega) (by omega))
    simp [retryLoop, retryFrom, max_retries, retry_delays, List.getD,
      hfail 0 (by omega), herr, hx1]
  · obtain ⟨⟨p1, n1⟩, hx1⟩ := Option.isSome_iff_exists.mp (hres 1 (by omega) (by omega))
    obtain ⟨⟨p2, n2⟩, hx2⟩ := Option.isSome_iff_exists.mp (hres 2 (by omega) (by omega))
    simp [retryLoop, retryFrom, max_retries, retry_delays, List.getD,
      hfail 0 (by omega), hfail 1 (by omega), herr, hx1, hx2]

/-- Claim C5, witness: a generic exception on the very first attempt — one
invocation, fatal, no sleeps. -/
theorem c5_fatal_no_retry_witness :
    (retryLoop (fun _ => RunOutcome.err "boom") (fun _ => none) "Groq (Fast)").invocations
      = 0 + 1 ∧
    (retryLoop (fun _ => RunOutcome.err "boom") (fun _ => none) "Groq (Fast)").result
      = LoopResult.fatal "boom" ∧
    (retryLoop (fun _ => RunOutcome.err "boom") (fun _ => none) "Groq (Fast)").sleeps
      = retry_delays.take 0 :=
  c5_fatal_no_retry _ _ "Groq (Fast)" 0 "boom" (by decide)
    (fun i hi => absurd hi (Nat.not_lt_zero i)) rfl
    (fun i h1 h2 => absurd (Nat.le_trans h1 h2) (by omega))

/-! ### Claim C4: the cache key defeats the normalization -/

/-- Claim C4, code evaluation at the failing input: "Foo" and " foo " have
identical normalized text and the second submission comes 600 s after the
first — within the 3600 s TTL (and past the 300 s cooldown) — yet the cached
runner performs a fresh kickoff, because the `st.cache_data` key is the
argument tuple `(idea_hash, idea_text)` and the raw texts differ. Submitting
the identical raw text within the TTL does hit the cache, and after the TTL
it runs fresh, as the claim says. -/
theorem c4_cache_raw_text_key_bug :
    normalize "Foo" = normalize " foo " ∧
    cache_key "Foo" ≠ cache_key " foo " ∧
    secondSubmissionKickoffs "Foo" "Foo" 0 600 (fun _ => "report") = 0 ∧
    secondSubmissionKickoffs "Foo" "Foo" 0 4000 (fun _ => "report") = 1 ∧
    secondSubmissionKickoffs "Foo" " foo " 0 600 (fun _ => "report") = 1 := by
  exact ⟨by decide, by decide, by decide, by decide, by decide⟩

/-! ### Helper lemmas about one click and a sequence of clicks -/

theorem validateClick_cases (st : SessionState) (idea : String) (now : Nat)
    (run : Nat → RunOutcome) (reselect : Nat → Option (ProviderConfig × String))
    (active : String) :
    ((validateClick st idea now run reselect active).2 = st ∧
      ∀ t, (validateClick st idea now run reselect active).1 ≠ SubmitOutcome.ran t) ∨
    (st.validation_count < 3 ∧
      (validateClick st idea now run reselect active).2 =
        ⟨some now, st.validation_count + 1⟩ ∧
      ∃ t, (validateClick st idea now run reselect active).1 = SubmitOutcome.ran t) := by
  unfold validateClick
  split
  · exact Or.inl ⟨rfl, fun t h => SubmitOutcome.noConfusion h⟩
  · split
    · exact Or.inl ⟨rfl, fun t h => SubmitOutcome.noConfusion h⟩
    · rename_i hcap
      split
      · split
        · exact Or.inl ⟨rfl, fun t h => SubmitOutcome.noConfusion h⟩
        · exact Or.inr ⟨by omega, rfl, _, rfl⟩
      · exact Or.inr ⟨by omega, rfl, _, rfl⟩

theorem processEvents_accepted_le (run : Nat → RunOutcome)
    (reselect : Nat → Option (ProviderConfig × String)) (active : String) :
    ∀ (evs : List (String × Nat)) (st : SessionState),
      (processEvents run reselect active st evs).2 ≤ 3 - st.validation_count := by
  intro evs
  induction evs with
  | nil => intro st; simp [processEvents]
  | cons ev evs ih =>
    intro st
    obtain ⟨idea, now⟩ := ev
    rcases validateClick_cases st idea now run reselect active with
      ⟨hst, hno⟩ | ⟨hlt, hst, t, ht⟩
    · cases hout : (validateClick st idea now run reselect active).1 with
      | ran t => exact absurd hout (hno t)
      | emptyWarning => simp only [processEvents, hout, hst]; exact ih st
      | limitReached => simp only [processEvents, hout, hst]; exact ih st
      | cooldownActive r => simp only [processEvents, hout, hst]; exact ih st
    · simp only [processEvents, ht, hst]
      have h2 := ih ⟨some now, st.validation_count + 1⟩
      simp only at h2 ⊢
      omega

/-! ### Claim C6: the session cap -/

/-- Claim C6: a click with a non-blank idea in a session whose count has
reached 3 is rejected with the beta-limit message, whatever the cooldown
state, and the session state is unchanged; any session started at count 0
accepts at most 3 submissions; a concrete session accepts exactly 3 and then
rejects the 4th even with its cooldown elapsed; and the reset button returns
the count to 0 (and clears the last request time). -/
theorem c6_session_cap (st : SessionState) (idea : String) (now : Nat)
    (run : Nat → RunOutcome) (reselect : Nat → Option (ProviderConfig × String))
    (active : String)
    (hidea : pyStrip idea ≠ "") (hcap : 3 ≤ st.validation_count) :
    validateClick st idea now run reselect active = (SubmitOutcome.limitReached, st) ∧
    (∀ (evs : List (String × Nat)) (st0 : SessionState), st0.validation_count = 0 →
      (processEvents run reselect active st0 evs).2 ≤ 3) ∧
    processEvents runOk reselectNone "Groq (Fast)" ⟨none, 0⟩
      [("a", 0), ("a", 300), ("a", 600), ("a", 900)] = (⟨some 600, 3⟩, 3) ∧
    (∀ s : SessionState, resetSession s = ⟨none, 0⟩) := by
  refine ⟨?_, ?_, by decide, fun s => rfl⟩
  · simp [validateClick, hidea, hcap]
  · intro evs st0 h0
    have hb := processEvents_accepted_le run reselect active evs st0
    omega

/-- Claim C6, witness: a 4th click at count 3 with the cooldown already
elapsed is still rejected and consumes nothing. -/
theorem c6_session_cap_witness :
    validateClick ⟨some 0, 3⟩ "b" 600 runOk reselectNone "Groq (Fast)"
      = (SubmitOutcome.limitReached, ⟨some 0, 3⟩) ∧
    (∀ (evs : List (String × Nat)) (st0 : SessionState), st0.validation_count = 0 →
      (processEvents runOk reselectNone "Groq (Fast)" st0 evs).2 ≤ 3) ∧
    processEvents runOk reselectNone "Groq (Fast)" ⟨none, 0⟩
      [("a", 0), ("a", 300), ("a", 600), ("a", 900)] = (⟨some 600, 3⟩, 3) ∧
    (∀ s : SessionState, resetSession s = ⟨none, 0⟩) :=
  c6_session_cap ⟨some 0, 3⟩ "b" 600 runOk reselectNone "Groq (Fast)"
    (by decide) (by decide)

/-! ### Claim C7: the cooldown boundary, and the timedelta.seconds day wrap -/

/-- Claim C7, code evaluation: with the session under the cap and the prior
request at time 0, a click at 299 s is rejected with a 1 s wait and a click
at 300 s is accepted — but a click at 86500 s (one day and 100 s later) is
rejected with a 200 s wait, because line 290 reads the `seconds` field of the
timedelta, which discards whole days. -/
theorem c7_cooldown_boundary_and_day_wrap :
    (validateClick ⟨some 0, 0⟩ "a" 299 runOk reselectNone "Groq (Fast)").1
      = SubmitOutcome.cooldownActive 1 ∧
    (validateClick ⟨some 0, 0⟩ "a" 300 runOk reselectNone "Groq (Fast)").1
      = SubmitOutcome.ran ⟨1, [], ["Groq (Fast)"], LoopResult.done "report"⟩ ∧
    time_elapsed 86500 0 = 100 ∧
    (validateClick ⟨some 0, 0⟩ "a" 86500 runOk reselectNone "Groq (Fast)").1
      = SubmitOutcome.cooldownActive 200 := by
  exact ⟨by decide, by decide, by decide, by decide⟩

/-! ### Claim C9: the blank-idea guard -/

/-- Claim C9: a click whose idea text strips to the empty string is rejected
with the warning before the cap and cooldown checks run — for every session
state, including capped or cooling-down ones — leaving the session state
unchanged and never entering the retry loop. -/
theorem c9_blank_idea_guard (st : SessionState) (idea : String) (now : Nat)
    (run : Nat → RunOutcome) (reselect : Nat → Option (ProviderConfig × String))
    (active : String)
    (h : pyStrip idea = "") :
    validateClick st idea now run reselect active = (SubmitOutcome.emptyWarning, st) ∧
    ∀ t, (validateClick st idea now run reselect active).1 ≠ SubmitOutcome.ran t := by
  have h1 : validateClick st idea now run reselect active
      = (SubmitOutcome.emptyWarning, st) := by
    simp [validateClick, h]
  refine ⟨h1, fun t ht => ?_⟩
  rw [h1] at ht
  exact SubmitOutcome.noConfusion ht

/-- Claim C9, witness: a whitespace-only idea in a capped, cooling-down
session still produces the blank-idea warning and changes nothing. -/
theorem c9_blank_idea_guard_witness :
    validateClick ⟨some 0, 3⟩ "   " 5 runOk reselectNone "Groq (Fast)"
      = (SubmitOutcome.emptyWarning, ⟨some 0, 3⟩) ∧
    ∀ t, (validateClick ⟨some 0, 3⟩ "   " 5 runOk reselectNone "Groq (Fast)").1
      ≠ SubmitOutcome.ran t :=
  c9_blank_idea_guard ⟨some 0, 3⟩ "   " 5 runOk reselectNone "Groq (Fast)" (by decide)

/-! ### Claim C10: throttle rejections consume nothing -/

/-- Claim C10: whenever a click is rejected by the session cap or by the
cooldown window, the session state after the click equals the state before:
the count is not incremented and the last request time is not updated. -/
theorem c10_throttle_preserves_state (st : SessionState) (idea : String) (now : Nat)
    (run : Nat → RunOutcome) (reselect : Nat → Option (ProviderConfig × String))
    (active : String)
    (h : (validateClick st idea now run reselect active).1 = SubmitOutcome.limitReached ∨
      ∃ rem, (validateClick st idea now run reselect active).1
        = SubmitOutcome.cooldownActive rem) :
    (validateClick st idea now run reselect active).2 = st := by
  rcases validateClick_cases st idea now run reselect active with ⟨hst, _⟩ | ⟨_, _, t, ht⟩
  · exact hst
  · rcases h with h | ⟨rem, h⟩ <;> rw [ht] at h <;> exact SubmitOutcome.noConfusion h

/-- Claim C10, witness: a cooldown rejection at 100 s leaves the state
untouched. -/
theorem c10_throttle_preserves_state_witness :
    (validateClick ⟨some 0, 0⟩ "a" 100 runOk reselectNone "Groq (Fast)").2 = ⟨some 0, 0⟩ :=
  c10_throttle_preserves_state ⟨some 0, 0⟩ "a" 100 runOk reselectNone "Groq (Fast)"
    (Or.inr ⟨200, by decide⟩)

end ValidatorDemo
